import Mathlib

/-!
Verification of the ergonomic metrics/risk engine of the human-factors
platform.  The repository ships the React presentation layer
(`frontend/src/components/MetricsDisplay.jsx`) and extensive documentation;
the backend metrics calculator itself is not part of the source tree, so the
engine below is modelled from the specification (each such definition says so
in its doc comment).  The radar-chart computation at the end is translated
directly from `MetricsDisplay.jsx`.

Real-number coordinates stand in for the floating-point values of the
source; angles are computed with `Real.arccos` exactly as the specified
formula `angle = degrees(acos(dot(v1,v2) / (|v1||v2|)))` prescribes.
-/

namespace Ergo

noncomputable section

/-- Three-valued risk classification used per metric and in aggregate. -/
inductive Risk where
  | low
  | medium
  | high
deriving DecidableEq

/-- A 3D position of an anatomical landmark (x, y, z in model units;
y is the vertical axis). -/
structure P3 where
  x : ℝ
  y : ℝ
  z : ℝ

instance : Sub P3 := ⟨fun a b => ⟨a.x - b.x, a.y - b.y, a.z - b.z⟩⟩

theorem P3.sub_def (a b : P3) : a - b = ⟨a.x - b.x, a.y - b.y, a.z - b.z⟩ := rfl

/-- Dot product of two landmark vectors. -/
def dot (a b : P3) : ℝ := a.x * b.x + a.y * b.y + a.z * b.z

/-- Euclidean norm of a landmark vector. -/
noncomputable def normP (a : P3) : ℝ := Real.sqrt (dot a a)

/-- Euclidean distance between two landmarks. -/
noncomputable def distP (a b : P3) : ℝ := normP (a - b)

/-- Midpoint of two landmarks. -/
def midPoint (a b : P3) : P3 := ⟨(a.x + b.x) / 2, (a.y + b.y) / 2, (a.z + b.z) / 2⟩

/-- The vertical (gravity) unit axis. -/
def vertical : P3 := ⟨0, 1, 0⟩

/-- Modelled from the spec: the unsigned angle in degrees between two
vectors, `degrees(acos(dot(v1,v2) / (|v1||v2|)))` (§4.1, §4.3). -/
noncomputable def angleDeg (v w : P3) : ℝ :=
  180 / Real.pi * Real.arccos (dot v w / (normP v * normP w))

/-- The fixed vocabulary of anatomical landmarks the engine requires
(strongly-typed enumeration, per the spec's design note §9). -/
inductive Landmark where
  | head
  | left_shoulder
  | right_shoulder
  | left_elbow
  | right_elbow
  | left_wrist
  | right_wrist
  | left_hand
  | right_hand
  | left_hip
  | right_hip
  | left_knee
  | right_knee
  | left_ankle
  | right_ankle
deriving DecidableEq

/-- The landmarks required by the engine, in the fixed order in which the
validator checks them. -/
def Landmark.required : List Landmark :=
  [.head, .left_shoulder, .right_shoulder, .left_elbow, .right_elbow,
   .left_wrist, .right_wrist, .left_hand, .right_hand, .left_hip,
   .right_hip, .left_knee, .right_knee, .left_ankle, .right_ankle]

/-- A Keypoint Set: a partial mapping from landmark name to 3D position for
one detected person. -/
def KeypointSet : Type := Landmark → Option P3

/-- Removing a single landmark from a Keypoint Set. -/
def removeLandmark (ks : KeypointSet) (l : Landmark) : KeypointSet :=
  fun x => if x = l then none else ks x

/-- Error taxonomy of the engine (spec §7): missing required landmark, or
degenerate geometry (zero-length vector) named by the offending metric. -/
inductive ErgoError where
  | missingLandmark (l : Landmark)
  | degenerateGeometry (metric : String)
deriving DecidableEq

/-- Modelled from the spec: fail-fast validation of the input contract
(§6, §7) — the first absent required landmark aborts the analysis with a
`MissingLandmarkError` naming it; otherwise every landmark position is
made available. -/
def validate (ks : KeypointSet) : Except ErgoError (Landmark → P3) :=
  match Landmark.required.find? (fun l => (ks l).isNone) with
  | some l => .error (.missingLandmark l)
  | none => .ok (fun l => (ks l).getD ⟨0, 0, 0⟩)

/-- Per-metric record for neck flexion (spec §3, §4.1). -/
structure NeckFlexionRecord where
  angle_degrees : ℝ
  risk_level : Risk
  optimal : Bool

/-- Per-metric record for shoulder elevation (spec §4.2). -/
structure ShoulderElevationRecord where
  asymmetry_percent : ℝ
  risk_level : Risk

/-- Per-metric record for the elbow angles: per-side angle and per-side
optimal flag, no aggregate risk level (spec §4.3). -/
structure ElbowAnglesRecord where
  left_angle : ℝ
  right_angle : ℝ
  left_optimal : Bool
  right_optimal : Bool

/-- Per-metric record for wrist extension (spec §4.4). -/
structure WristExtensionRecord where
  average_deviation : ℝ
  risk_level : Risk

/-- Per-metric record for back posture (spec §4.5). -/
structure BackPostureRecord where
  forward_lean_degrees : ℝ
  risk_level : Risk

/-- Anthropometric Record: four body-segment lengths in centimeters
(spec §3, §4.6). -/
structure Measurements where
  shoulder_breadth_cm : ℝ
  torso_height_cm : ℝ
  arm_length_cm : ℝ
  leg_length_cm : ℝ

/-- Symmetry Record: three scores in [0,100] (spec §3, §4.7). -/
structure BodySymmetry where
  shoulder_symmetry : ℝ
  hip_symmetry : ℝ
  symmetry_score : ℝ

/-- Risk Assessment: overall level, numeric score, risk-factor strings and
recommendation strings (spec §3, §4.8). -/
structure RiskAssessment where
  overall_risk : Risk
  risk_score : ℝ
  risk_factors : List String
  recommendations : List String

/-- The full output record handed to downstream consumers (spec §6); field
names follow the JSON keys read by `MetricsDisplay.jsx`. -/
structure MetricsRecord where
  neck_flexion : NeckFlexionRecord
  shoulder_elevation : ShoulderElevationRecord
  elbow_angles : ElbowAnglesRecord
  wrist_extension : WristExtensionRecord
  back_posture : BackPostureRecord
  measurements : Measurements
  body_symmetry : BodySymmetry
  risk_assessment : RiskAssessment

/-- Modelled from the spec: head-to-neck vector, the neck reference being
the shoulder midpoint (§4.1). -/
def neckVecOf (p : Landmark → P3) : P3 :=
  p .head - midPoint (p .left_shoulder) (p .right_shoulder)

/-- Modelled from the spec: neck flexion angle against vertical (§4.1). -/
noncomputable def neckAngleOf (p : Landmark → P3) : ℝ := angleDeg (neckVecOf p) vertical

/-- Modelled from the spec: neck flexion risk thresholds, <20° low,
20°–45° medium, >45° high (§4.1). -/
noncomputable def classifyNeck (a : ℝ) : Risk :=
  if a < 20 then .low else if a ≤ 45 then .medium else .high

/-- Modelled from the spec: hip-midpoint-to-shoulder-midpoint vector
(§4.5). -/
def backVecOf (p : Landmark → P3) : P3 :=
  midPoint (p .left_shoulder) (p .right_shoulder) -
    midPoint (p .left_hip) (p .right_hip)

/-- Modelled from the spec: forward lean angle against vertical (§4.5). -/
noncomputable def backAngleOf (p : Landmark → P3) : ℝ := angleDeg (backVecOf p) vertical

/-- Modelled from the spec: back posture risk thresholds, <10° low,
10°–25° medium, >25° high (§4.5). -/
noncomputable def classifyBack (a : ℝ) : Risk :=
  if a < 10 then .low else if a ≤ 25 then .medium else .high

/-- Modelled from the spec: shoulder breadth, the body-size reference scale
(§4.2, §4.6, §4.7). -/
noncomputable def breadthOf (p : Landmark → P3) : ℝ :=
  distP (p .left_shoulder) (p .right_shoulder)

/-- Modelled from the spec: shoulder height asymmetry percentage,
`|height_diff| / shoulder_breadth_reference × 100` (§4.2). -/
noncomputable def shoulderAsymOf (p : Landmark → P3) : ℝ :=
  |(p .left_shoulder).y - (p .right_shoulder).y| / breadthOf p * 100

/-- Modelled from the spec: shoulder elevation risk thresholds, <5% low,
5–15% medium, >15% high (§4.2). -/
noncomputable def classifyShoulder (a : ℝ) : Risk :=
  if a < 5 then .low else if a ≤ 15 then .medium else .high

/-- Modelled from the spec: interior elbow angle from the shoulder→elbow
and wrist→elbow vectors, left side (§4.3). -/
noncomputable def leftElbowAngleOf (p : Landmark → P3) : ℝ :=
  angleDeg (p .left_shoulder - p .left_elbow) (p .left_wrist - p .left_elbow)

/-- Modelled from the spec: interior elbow angle, right side (§4.3). -/
noncomputable def rightElbowAngleOf (p : Landmark → P3) : ℝ :=
  angleDeg (p .right_shoulder - p .right_elbow) (p .right_wrist - p .right_elbow)

/-- Modelled from the spec: per-side elbow optimal flag,
70° ≤ angle ≤ 110° (§4.3). -/
noncomputable def elbowOptimal (a : ℝ) : Bool :=
  if 70 ≤ a ∧ a ≤ 110 then true else false

/-- Modelled from the spec: wrist deviation from the straight
forearm-to-hand line, left side (§4.4). -/
noncomputable def leftWristDevOf (p : Landmark → P3) : ℝ :=
  angleDeg (p .left_wrist - p .left_elbow) (p .left_hand - p .left_wrist)

/-- Modelled from the spec: wrist deviation, right side (§4.4). -/
noncomputable def rightWristDevOf (p : Landmark → P3) : ℝ :=
  angleDeg (p .right_wrist - p .right_elbow) (p .right_hand - p .right_wrist)

/-- Modelled from the spec: wrist deviation averaged across both sides
(§4.4). -/
noncomputable def avgWristDevOf (p : Landmark → P3) : ℝ :=
  (leftWristDevOf p + rightWristDevOf p) / 2

/-- Modelled from the spec: wrist extension risk thresholds, <15° low,
15–30° medium, >30° high (§4.4). -/
noncomputable def classifyWrist (a : ℝ) : Risk :=
  if a < 15 then .low else if a ≤ 30 then .medium else .high

/-- Modelled from the spec: the calibration scale factor turning model
units into centimeters — an external configuration constant (§4.6); the
documented default is 100 cm per model unit. -/
def calibrationCm : ℝ := 100

/-- Modelled from the spec: torso height, neck reference to hip midpoint
(§4.6). -/
noncomputable def torsoLenOf (p : Landmark → P3) : ℝ :=
  distP (midPoint (p .left_shoulder) (p .right_shoulder))
    (midPoint (p .left_hip) (p .right_hip))

/-- Modelled from the spec: arm chain length, shoulder→elbow→wrist (§4.6). -/
noncomputable def armLenOf (p : Landmark → P3) : ℝ :=
  distP (p .left_shoulder) (p .left_elbow) + distP (p .left_elbow) (p .left_wrist)

/-- Modelled from the spec: leg chain length, hip→knee→ankle (§4.6). -/
noncomputable def legLenOf (p : Landmark → P3) : ℝ :=
  distP (p .left_hip) (p .left_knee) + distP (p .left_knee) (p .left_ankle)

/-- Modelled from the spec: the bilateral symmetry score
`100 × (1 − |left − right| / reference_scale)` clamped to [0,100] (§4.7). -/
noncomputable def symScore (l r ref : ℝ) : ℝ :=
  max 0 (min 100 (100 * (1 - |l - r| / ref)))

/-- Modelled from the spec: shoulder symmetry from the two shoulder
heights, normalized by shoulder breadth (§4.7). -/
noncomputable def shoulderSymOf (p : Landmark → P3) : ℝ :=
  symScore (p .left_shoulder).y (p .right_shoulder).y (breadthOf p)

/-- Modelled from the spec: hip symmetry from the two hip heights,
normalized by shoulder breadth (§4.7). -/
noncomputable def hipSymOf (p : Landmark → P3) : ℝ :=
  symScore (p .left_hip).y (p .right_hip).y (breadthOf p)

/-- Numeric weight of a risk level: low=0, medium=1, high=2 (§4.8). -/
def Risk.weight : Risk → ℝ
  | .low => 0
  | .medium => 1
  | .high => 2

/-- Modelled from the spec: each elbow side is an independent sub-check of
the aggregator; an optimal side contributes risk low, a non-optimal side
risk medium (§4.3, §4.8). -/
def elbowSideRisk (optimal : Bool) : Risk :=
  if optimal then .low else .medium

/-- Modelled from the spec: risk score = mean of the six per-metric weights,
elbow contributing one weight per side (§4.8). -/
noncomputable def riskScoreOf (n s : Risk) (lOpt rOpt : Bool) (w b : Risk) : ℝ :=
  (n.weight + s.weight + (elbowSideRisk lOpt).weight + (elbowSideRisk rOpt).weight +
    w.weight + b.weight) / 6

/-- Modelled from the spec: overall risk from the score — <0.5 low,
0.5–1.2 medium, ≥1.2 high (documented default policy, §4.8). -/
noncomputable def overallRiskOf (score : ℝ) : Risk :=
  if score < 0.5 then .low else if score < 1.2 then .medium else .high

/-- Risk-factor string for the neck metric. -/
def neckRiskMsg : String := "Neck flexion exceeds the optimal range of 20 degrees"

/-- Risk-factor string for the shoulder metric. -/
def shoulderRiskMsg : String := "Shoulder height asymmetry exceeds the optimal range"

/-- Risk-factor string for the elbow metric. -/
def elbowRiskMsg : String := "Elbow angle outside the optimal 70-110 degree range"

/-- Risk-factor string for the wrist metric. -/
def wristRiskMsg : String := "Wrist deviation exceeds the neutral range"

/-- Risk-factor string for the back metric. -/
def backRiskMsg : String := "Back forward lean exceeds the optimal range of 10 degrees"

/-- Recommendation string for the neck metric. -/
def neckAdvice : String := "Raise the monitor to reduce neck flexion"

/-- Recommendation string for the shoulder metric. -/
def shoulderAdvice : String := "Adjust chair or desk height to level the shoulders"

/-- Recommendation string for the elbow metric. -/
def elbowAdvice : String := "Adjust armrest height to keep elbows near 90 degrees"

/-- Recommendation string for the wrist metric. -/
def wristAdvice : String := "Use a wrist rest to keep the wrists neutral"

/-- Recommendation string for the back metric. -/
def backAdvice : String := "Adjust the backrest to support an upright posture"

/-- Modelled from the spec: one descriptive risk-factor string per metric
whose risk is medium or high; either elbow side non-optimal counts as a
risk factor (§4.8).  The source interpolates the measured value into the
string; the fixed template text is modelled. -/
def riskFactorsOf (n s : Risk) (lOpt rOpt : Bool) (w b : Risk) : List String :=
  (if n ≠ Risk.low then [neckRiskMsg] else []) ++
  (if s ≠ Risk.low then [shoulderRiskMsg] else []) ++
  (if lOpt && rOpt then [] else [elbowRiskMsg]) ++
  (if w ≠ Risk.low then [wristRiskMsg] else []) ++
  (if b ≠ Risk.low then [backRiskMsg] else [])

/-- Modelled from the spec: one templated recommendation per non-low risk
factor, a deterministic mapping from metric identity to text (§4.8). -/
def recommendationsOf (n s : Risk) (lOpt rOpt : Bool) (w b : Risk) : List String :=
  (if n ≠ Risk.low then [neckAdvice] else []) ++
  (if s ≠ Risk.low then [shoulderAdvice] else []) ++
  (if lOpt && rOpt then [] else [elbowAdvice]) ++
  (if w ≠ Risk.low then [wristAdvice] else []) ++
  (if b ≠ Risk.low then [backAdvice] else [])

/-- Modelled from the spec: the full metrics record computed from validated
keypoints — five extractors, anthropometric measurer, symmetry analyzer and
risk aggregator (§2, §4). -/
noncomputable def mkRecord (p : Landmark → P3) : MetricsRecord :=
  let nAngle := neckAngleOf p
  let nRisk := classifyNeck nAngle
  let sAsym := shoulderAsymOf p
  let sRisk := classifyShoulder sAsym
  let lAngle := leftElbowAngleOf p
  let rAngle := rightElbowAngleOf p
  let lOpt := elbowOptimal lAngle
  let rOpt := elbowOptimal rAngle
  let wDev := avgWristDevOf p
  let wRisk := classifyWrist wDev
  let bAngle := backAngleOf p
  let bRisk := classifyBack bAngle
  { neck_flexion := ⟨nAngle, nRisk, if nAngle < 20 then true else false⟩
  , shoulder_elevation := ⟨sAsym, sRisk⟩
  , elbow_angles := ⟨lAngle, rAngle, lOpt, rOpt⟩
  , wrist_extension := ⟨wDev, wRisk⟩
  , back_posture := ⟨bAngle, bRisk⟩
  , measurements :=
      ⟨breadthOf p * calibrationCm, torsoLenOf p * calibrationCm,
       armLenOf p * calibrationCm, legLenOf p * calibrationCm⟩
  , body_symmetry :=
      ⟨shoulderSymOf p, hipSymOf p, (shoulderSymOf p + hipSymOf p) / 2⟩
  , risk_assessment :=
      ⟨overallRiskOf (riskScoreOf nRisk sRisk lOpt rOpt wRisk bRisk),
       riskScoreOf nRisk sRisk lOpt rOpt wRisk bRisk,
       riskFactorsOf nRisk sRisk lOpt rOpt wRisk bRisk,
       recommendationsOf nRisk sRisk lOpt rOpt wRisk bRisk⟩ }

/-- Modelled from the spec: degenerate-geometry checks (zero-length
vectors) surfaced with the offending metric's name, then the pure record
computation (§7). -/
noncomputable def computeValidated (p : Landmark → P3) : Except ErgoError MetricsRecord :=
  if dot (neckVecOf p) (neckVecOf p) = 0 then
    .error (.degenerateGeometry "neck_flexion")
  else if dot (backVecOf p) (backVecOf p) = 0 then
    .error (.degenerateGeometry "back_posture")
  else if dot (p .left_shoulder - p .right_shoulder) (p .left_shoulder - p .right_shoulder) = 0 then
    .error (.degenerateGeometry "shoulder_elevation")
  else if dot (p .left_shoulder - p .left_elbow) (p .left_shoulder - p .left_elbow) = 0 ∨
      dot (p .left_wrist - p .left_elbow) (p .left_wrist - p .left_elbow) = 0 ∨
      dot (p .right_shoulder - p .right_elbow) (p .right_shoulder - p .right_elbow) = 0 ∨
      dot (p .right_wrist - p .right_elbow) (p .right_wrist - p .right_elbow) = 0 then
    .error (.degenerateGeometry "elbow_angles")
  else if dot (p .left_hand - p .left_wrist) (p .left_hand - p .left_wrist) = 0 ∨
      dot (p .right_hand - p .right_wrist) (p .right_hand - p .right_wrist) = 0 then
    .error (.degenerateGeometry "wrist_extension")
  else
    .ok (mkRecord p)

/-- Modelled from the spec: the whole analysis — fail-fast landmark
validation, degeneracy checks, then the pure metrics computation; either the
full record is produced or the call fails as a whole (§2, §7). -/
noncomputable def analyze (ks : KeypointSet) : Except ErgoError MetricsRecord :=
  match validate ks with
  | .error e => .error e
  | .ok p => computeValidated p

/-- Radar-chart posture-quality score for the neck, from
`MetricsDisplay.jsx` line 58:
`100 - Math.min(100, (metrics.neck_flexion.angle_degrees / 60) * 100)`. -/
noncomputable def radarNeckScore (m : MetricsRecord) : ℝ :=
  100 - min 100 (m.neck_flexion.angle_degrees / 60 * 100)

/-- Radar-chart score for the shoulders, from `MetricsDisplay.jsx` line 62:
`100 - Math.min(100, metrics.shoulder_elevation.asymmetry_percent * 5)`. -/
noncomputable def radarShoulderScore (m : MetricsRecord) : ℝ :=
  100 - min 100 (m.shoulder_elevation.asymmetry_percent * 5)

/-- Radar-chart score for the elbows, from `MetricsDisplay.jsx` line 66:
`(left_optimal && right_optimal) ? 100 : 50`. -/
noncomputable def radarElbowScore (m : MetricsRecord) : ℝ :=
  if m.elbow_angles.left_optimal && m.elbow_angles.right_optimal then 100 else 50

/-- Radar-chart score for the wrists, from `MetricsDisplay.jsx` line 70:
`100 - Math.min(100, (metrics.wrist_extension.average_deviation / 45) * 100)`. -/
noncomputable def radarWristScore (m : MetricsRecord) : ℝ :=
  100 - min 100 (m.wrist_extension.average_deviation / 45 * 100)

/-- Radar-chart score for the back, from `MetricsDisplay.jsx` line 74:
`100 - Math.min(100, (metrics.back_posture.forward_lean_degrees / 60) * 100)`. -/
noncomputable def radarBackScore (m : MetricsRecord) : ℝ :=
  100 - min 100 (m.back_posture.forward_lean_degrees / 60 * 100)

/-- Radar-chart score for symmetry, from `MetricsDisplay.jsx` line 78: the
overall symmetry score is passed through. -/
noncomputable def radarSymmetryScore (m : MetricsRecord) : ℝ :=
  m.body_symmetry.symmetry_score

/-! ### Basic facts about the embedded engine -/

theorem angleDeg_nonneg (v w : P3) : 0 ≤ angleDeg v w :=
  mul_nonneg (div_nonneg (by norm_num) Real.pi_pos.le) (Real.arccos_nonneg _)

theorem angleDeg_le_180 (v w : P3) : angleDeg v w ≤ 180 := by
  have h := Real.arccos_le_pi (dot v w / (normP v * normP w))
  have hπ : (0:ℝ) < Real.pi := Real.pi_pos
  have : angleDeg v w ≤ 180 / Real.pi * Real.pi :=
    mul_le_mul_of_nonneg_left h (div_nonneg (by norm_num) hπ.le)
  calc angleDeg v w ≤ 180 / Real.pi * Real.pi := this
    _ = 180 := by field_simp

theorem Risk.weight_nonneg (r : Risk) : 0 ≤ r.weight := by
  cases r <;> norm_num [Risk.weight]

theorem Risk.weight_le_two (r : Risk) : r.weight ≤ 2 := by
  cases r <;> norm_num [Risk.weight]

/-- Inversion of a successful analysis: the record is the pure computation
over the validated keypoints. -/
theorem analyze_ok_inv (ks : KeypointSet) (rec : MetricsRecord)
    (h : analyze ks = .ok rec) :
    ∃ p, validate ks = .ok p ∧ rec = mkRecord p := by
  unfold analyze at h
  cases hv : validate ks with
  | error e => rw [hv] at h; exact absurd h (by simp)
  | ok p =>
    rw [hv] at h
    have h' : computeValidated p = Except.ok rec := h
    refine ⟨p, rfl, ?_⟩
    unfold computeValidated at h'
    split_ifs at h'
    exact (Except.ok.injEq _ _ ▸ h').symm

/-- Radians of an angle given in degrees. -/
def degRad (d : ℝ) : ℝ := d * Real.pi / 180

theorem dot_sin_cos (θ : ℝ) :
    dot ⟨Real.sin θ, Real.cos θ, 0⟩ ⟨Real.sin θ, Real.cos θ, 0⟩ = 1 := by
  simp only [dot]
  nlinarith [Real.sin_sq_add_cos_sq θ]

theorem normP_sin_cos (θ : ℝ) : normP ⟨Real.sin θ, Real.cos θ, 0⟩ = 1 := by
  rw [normP, dot_sin_cos, Real.sqrt_one]

theorem dot_eY : dot ⟨(0:ℝ), 1, 0⟩ ⟨0, 1, 0⟩ = 1 := by norm_num [dot]

theorem dot_eX : dot ⟨(1:ℝ), 0, 0⟩ ⟨1, 0, 0⟩ = 1 := by norm_num [dot]

theorem dot_negX : dot ⟨(-1:ℝ), 0, 0⟩ ⟨-1, 0, 0⟩ = 1 := by norm_num [dot]

theorem normP_eY : normP ⟨(0:ℝ), 1, 0⟩ = 1 := by rw [normP, dot_eY, Real.sqrt_one]

theorem normP_eX : normP ⟨(1:ℝ), 0, 0⟩ = 1 := by rw [normP, dot_eX, Real.sqrt_one]

theorem normP_negX : normP ⟨(-1:ℝ), 0, 0⟩ = 1 := by rw [normP, dot_negX, Real.sqrt_one]

theorem normP_vertical : normP vertical = 1 := normP_eY

/-- The specified angle formula recovers the inclination of a unit vector
tilted `θ` radians away from vertical in the sagittal plane. -/
theorem angleDeg_sin_cos_vertical (θ : ℝ) (h0 : 0 ≤ θ) (h1 : θ ≤ Real.pi) :
    angleDeg ⟨Real.sin θ, Real.cos θ, 0⟩ vertical = 180 / Real.pi * θ := by
  have hd : dot ⟨Real.sin θ, Real.cos θ, 0⟩ vertical = Real.cos θ := by
    simp [dot, vertical]
  rw [angleDeg, hd, normP_sin_cos, normP_vertical]
  norm_num [Real.arccos_cos h0 h1]

/-- The specified angle formula gives 90° on orthogonal unit vectors. -/
theorem angleDeg_eY_eX : angleDeg ⟨(0:ℝ), 1, 0⟩ ⟨1, 0, 0⟩ = 90 := by
  have hd : dot ⟨(0:ℝ), 1, 0⟩ ⟨1, 0, 0⟩ = 0 := by norm_num [dot]
  rw [angleDeg, hd, zero_div, Real.arccos_zero]
  field_simp
  ring

/-- The specified angle formula gives 0° on an aligned unit vector. -/
theorem angleDeg_eX_eX : angleDeg ⟨(1:ℝ), 0, 0⟩ ⟨1, 0, 0⟩ = 0 := by
  rw [angleDeg, dot_eX, normP_eX]
  norm_num [Real.arccos_one]

/-- A list search for a predicate that holds exactly at `a` finds `a`. -/
theorem find_eq_some_of_unique {α : Type} (p : α → Bool) (a : α) :
    ∀ L : List α, a ∈ L → (∀ x ∈ L, p x = true → x = a) → p a = true →
      L.find? p = some a := by
  intro L
  induction L with
  | nil => intro h; cases h
  | cons b t ih =>
    intro hmem hall hpa
    by_cases hb : p b = true
    · have hba : b = a := hall b (List.mem_cons_self b t) hb
      rw [List.find?_cons_of_pos _ hb, hba]
    · rw [List.find?_cons_of_neg _ (by simpa using hb)]
      refine ih ?_ (fun x hx hpx => hall x (List.mem_cons_of_mem _ hx) hpx) hpa
      rcases List.mem_cons.mp hmem with h | h
      · exact absurd (h ▸ hpa) hb
      · exact h

/-! ### The forward-leaning desk posture scenario (spec §8)

Head pitched forward 35°, shoulders level, back leaning forward 28°,
elbows at 90°, wrists neutral.  All segments lie in the sagittal (x–y)
plane; shoulder breadth and hip breadth are one model unit. -/

/-- Concrete landmark positions realizing the forward-leaning desk posture
scenario: the spine leans 28° from vertical, the head-neck segment a
further 35° from vertical, shoulders and hips level, elbows bent 90°,
hands aligned with the forearms. -/
def scenarioP : Landmark → P3
  | .head => ⟨Real.sin (degRad 28) + Real.sin (degRad 35),
              Real.cos (degRad 28) + Real.cos (degRad 35), 0⟩
  | .left_shoulder => ⟨Real.sin (degRad 28) - 1/2, Real.cos (degRad 28), 0⟩
  | .right_shoulder => ⟨Real.sin (degRad 28) + 1/2, Real.cos (degRad 28), 0⟩
  | .left_elbow => ⟨Real.sin (degRad 28) - 1/2, Real.cos (degRad 28) - 1, 0⟩
  | .right_elbow => ⟨Real.sin (degRad 28) + 1/2, Real.cos (degRad 28) - 1, 0⟩
  | .left_wrist => ⟨Real.sin (degRad 28) + 1/2, Real.cos (degRad 28) - 1, 0⟩
  | .right_wrist => ⟨Real.sin (degRad 28) + 3/2, Real.cos (degRad 28) - 1, 0⟩
  | .left_hand => ⟨Real.sin (degRad 28) + 3/2, Real.cos (degRad 28) - 1, 0⟩
  | .right_hand => ⟨Real.sin (degRad 28) + 5/2, Real.cos (degRad 28) - 1, 0⟩
  | .left_hip => ⟨-1/2, 0, 0⟩
  | .right_hip => ⟨1/2, 0, 0⟩
  | .left_knee => ⟨-1/2, -1, 0⟩
  | .right_knee => ⟨1/2, -1, 0⟩
  | .left_ankle => ⟨-1/2, -2, 0⟩
  | .right_ankle => ⟨1/2, -2, 0⟩

/-- The scenario Keypoint Set: every required landmark present. -/
def scenarioKS : KeypointSet := fun l => some (scenarioP l)

theorem scenario_neckVec :
    neckVecOf scenarioP = ⟨Real.sin (degRad 35), Real.cos (degRad 35), 0⟩ := by
  simp only [neckVecOf, scenarioP, midPoint, P3.sub_def, P3.mk.injEq]
  refine ⟨by ring, by ring, by ring⟩

theorem scenario_backVec :
    backVecOf scenarioP = ⟨Real.sin (degRad 28), Real.cos (degRad 28), 0⟩ := by
  simp only [backVecOf, scenarioP, midPoint, P3.sub_def, P3.mk.injEq]
  refine ⟨by ring, by ring, by ring⟩

theorem scenario_shoulderVec :
    scenarioP .left_shoulder - scenarioP .right_shoulder = ⟨-1, 0, 0⟩ := by
  simp only [scenarioP, P3.sub_def, P3.mk.injEq]
  refine ⟨by ring, by ring, by ring⟩

theorem scenario_leftUpperArm :
    scenarioP .left_shoulder - scenarioP .left_elbow = ⟨0, 1, 0⟩ := by
  simp only [scenarioP, P3.sub_def, P3.mk.injEq]
  refine ⟨by ring, by ring, by ring⟩

theorem scenario_leftForearm :
    scenarioP .left_wrist - scenarioP .left_elbow = ⟨1, 0, 0⟩ := by
  simp only [scenarioP, P3.sub_def, P3.mk.injEq]
  refine ⟨by ring, by ring, by ring⟩

theorem scenario_rightUpperArm :
    scenarioP .right_shoulder - scenarioP .right_elbow = ⟨0, 1, 0⟩ := by
  simp only [scenarioP, P3.sub_def, P3.mk.injEq]
  refine ⟨by ring, by ring, by ring⟩

theorem scenario_rightForearm :
    scenarioP .right_wrist - scenarioP .right_elbow = ⟨1, 0, 0⟩ := by
  simp only [scenarioP, P3.sub_def, P3.mk.injEq]
  refine ⟨by ring, by ring, by ring⟩

theorem scenario_leftHandVec :
    scenarioP .left_hand - scenarioP .left_wrist = ⟨1, 0, 0⟩ := by
  simp only [scenarioP, P3.sub_def, P3.mk.injEq]
  refine ⟨by ring, by ring, by ring⟩

theorem scenario_rightHandVec :
    scenarioP .right_hand - scenarioP .right_wrist = ⟨1, 0, 0⟩ := by
  simp only [scenarioP, P3.sub_def, P3.mk.injEq]
  refine ⟨by ring, by ring, by ring⟩

theorem degRad_nonneg (d : ℝ) (h : 0 ≤ d) : 0 ≤ degRad d := by
  rw [degRad]
  positivity

theorem degRad_le_pi (d : ℝ) (h : d ≤ 180) : degRad d ≤ Real.pi := by
  rw [degRad]
  nlinarith [Real.pi_pos]

theorem scenario_neckAngle : neckAngleOf scenarioP = 35 := by
  rw [neckAngleOf, scenario_neckVec,
    angleDeg_sin_cos_vertical _ (degRad_nonneg 35 (by norm_num))
      (degRad_le_pi 35 (by norm_num)), degRad]
  field_simp
  ring

theorem scenario_backAngle : backAngleOf scenarioP = 28 := by
  rw [backAngleOf, scenario_backVec,
    angleDeg_sin_cos_vertical _ (degRad_nonneg 28 (by norm_num))
      (degRad_le_pi 28 (by norm_num)), degRad]
  field_simp
  ring

theorem scenario_breadth : breadthOf scenarioP = 1 := by
  rw [breadthOf, distP, scenario_shoulderVec, normP_negX]

theorem scenario_shoulderAsym : shoulderAsymOf scenarioP = 0 := by
  rw [shoulderAsymOf, scenario_breadth]
  simp only [scenarioP]
  norm_num

theorem scenario_leftElbowAngle : leftElbowAngleOf scenarioP = 90 := by
  rw [leftElbowAngleOf, scenario_leftUpperArm, scenario_leftForearm, angleDeg_eY_eX]

theorem scenario_rightElbowAngle : rightElbowAngleOf scenarioP = 90 := by
  rw [rightElbowAngleOf, scenario_rightUpperArm, scenario_rightForearm, angleDeg_eY_eX]

theorem scenario_avgWristDev : avgWristDevOf scenarioP = 0 := by
  rw [avgWristDevOf, leftWristDevOf, rightWristDevOf,
    scenario_leftForearm, scenario_leftHandVec,
    scenario_rightForearm, scenario_rightHandVec, angleDeg_eX_eX]
  norm_num

theorem scenario_torso : torsoLenOf scenarioP = 1 := by
  have h : torsoLenOf scenarioP = normP (backVecOf scenarioP) := rfl
  rw [h, scenario_backVec, normP_sin_cos]

theorem scenario_arm : armLenOf scenarioP = 2 := by
  have h1 : distP (scenarioP .left_shoulder) (scenarioP .left_elbow) = 1 := by
    rw [distP, scenario_leftUpperArm, normP_eY]
  have h2 : distP (scenarioP .left_elbow) (scenarioP .left_wrist) = 1 := by
    have hv : scenarioP .left_elbow - scenarioP .left_wrist = ⟨-1, 0, 0⟩ := by
      simp only [scenarioP, P3.sub_def, P3.mk.injEq]
      refine ⟨by ring, by ring, by ring⟩
    rw [distP, hv, normP_negX]
  rw [armLenOf, h1, h2]
  norm_num

theorem scenario_leg : legLenOf scenarioP = 2 := by
  have h1 : distP (scenarioP .left_hip) (scenarioP .left_knee) = 1 := by
    have hv : scenarioP .left_hip - scenarioP .left_knee = ⟨0, 1, 0⟩ := by
      simp only [scenarioP, P3.sub_def, P3.mk.injEq]
      refine ⟨by ring, by ring, by ring⟩
    rw [distP, hv, normP_eY]
  have h2 : distP (scenarioP .left_knee) (scenarioP .left_ankle) = 1 := by
    have hv : scenarioP .left_knee - scenarioP .left_ankle = ⟨0, 1, 0⟩ := by
      simp only [scenarioP, P3.sub_def, P3.mk.injEq]
      refine ⟨by ring, by ring, by ring⟩
    rw [distP, hv, normP_eY]
  rw [legLenOf, h1, h2]
  norm_num

theorem scenario_shoulderSym : shoulderSymOf scenarioP = 100 := by
  rw [shoulderSymOf, scenario_breadth, symScore]
  simp only [scenarioP]
  norm_num

theorem scenario_hipSym : hipSymOf scenarioP = 100 := by
  rw [hipSymOf, scenario_breadth, symScore]
  simp only [scenarioP]
  norm_num

/-- The record the modelled engine produces on the scenario input. -/
def scenarioRec : MetricsRecord :=
  { neck_flexion := ⟨35, .medium, false⟩
  , shoulder_elevation := ⟨0, .low⟩
  , elbow_angles := ⟨90, 90, true, true⟩
  , wrist_extension := ⟨0, .low⟩
  , back_posture := ⟨28, .high⟩
  , measurements := ⟨100, 100, 200, 200⟩
  , body_symmetry := ⟨100, 100, 100⟩
  , risk_assessment :=
      ⟨.medium, 1/2, [neckRiskMsg, backRiskMsg], [neckAdvice, backAdvice]⟩ }

theorem scenario_mkRecord : mkRecord scenarioP = scenarioRec := by
  rw [mkRecord]
  simp only [scenario_neckAngle, scenario_shoulderAsym, scenario_leftElbowAngle,
    scenario_rightElbowAngle, scenario_avgWristDev, scenario_backAngle,
    scenario_breadth, scenario_torso, scenario_arm, scenario_leg,
    scenario_shoulderSym, scenario_hipSym]
  norm_num [scenarioRec, classifyNeck, classifyShoulder, classifyWrist,
    classifyBack, elbowOptimal, riskScoreOf, overallRiskOf, riskFactorsOf,
    recommendationsOf, elbowSideRisk, Risk.weight, calibrationCm]
  exact ⟨rfl, rfl⟩

theorem validate_scenario : validate scenarioKS = .ok scenarioP := by
  have hfun : (fun l => (scenarioKS l).getD ⟨0, 0, 0⟩) = scenarioP :=
    funext fun l => rfl
  have hfind : Landmark.required.find? (fun l => (scenarioKS l).isNone) = none := rfl
  rw [validate, hfind]
  exact congrArg Except.ok hfun

/-- The modelled engine succeeds on the scenario input and produces the
concrete record `scenarioRec`. -/
theorem analyze_scenario : analyze scenarioKS = .ok scenarioRec := by
  have h1 : analyze scenarioKS = computeValidated scenarioP := by
    rw [analyze, validate_scenario]
  rw [h1, computeValidated]
  rw [if_neg (by rw [scenario_neckVec, dot_sin_cos]; norm_num)]
  rw [if_neg (by rw [scenario_backVec, dot_sin_cos]; norm_num)]
  rw [if_neg (by rw [scenario_shoulderVec, dot_negX]; norm_num)]
  rw [if_neg (by
    simp only [not_or]
    refine ⟨?_, ?_, ?_, ?_⟩
    · rw [scenario_leftUpperArm, dot_eY]; norm_num
    · rw [scenario_leftForearm, dot_eX]; norm_num
    · rw [scenario_rightUpperArm, dot_eY]; norm_num
    · rw [scenario_rightForearm, dot_eX]; norm_num)]
  rw [if_neg (by
    simp only [not_or]
    refine ⟨?_, ?_⟩
    · rw [scenario_leftHandVec, dot_eX]; norm_num
    · rw [scenario_rightHandVec, dot_eX]; norm_num)]
  exact congrArg Except.ok scenario_mkRecord

/-! ### Threshold and clamping lemmas -/

theorem classifyBack_spec (a : ℝ) :
    (a < 10 → classifyBack a = .low) ∧
      (10 ≤ a ∧ a ≤ 25 → classifyBack a = .medium) ∧
      (25 < a → classifyBack a = .high) := by
  unfold classifyBack
  refine ⟨fun h => if_pos h, fun ⟨h1, h2⟩ => ?_, fun h => ?_⟩
  · rw [if_neg (by linarith), if_pos h2]
  · rw [if_neg (by linarith), if_neg (by linarith)]

theorem classifyNeck_spec (a : ℝ) :
    (a < 20 → classifyNeck a = .low) ∧
      (20 ≤ a ∧ a ≤ 45 → classifyNeck a = .medium) ∧
      (45 < a → classifyNeck a = .high) := by
  unfold classifyNeck
  refine ⟨fun h => if_pos h, fun ⟨h1, h2⟩ => ?_, fun h => ?_⟩
  · rw [if_neg (by linarith), if_pos h2]
  · rw [if_neg (by linarith), if_neg (by linarith)]

theorem elbowOptimal_iff (a : ℝ) : elbowOptimal a = true ↔ 70 ≤ a ∧ a ≤ 110 := by
  rw [elbowOptimal]
  split_ifs with h <;> simp [h]

theorem riskScoreOf_bounds (n s : Risk) (lo ro : Bool) (w b : Risk) :
    0 ≤ riskScoreOf n s lo ro w b ∧ riskScoreOf n s lo ro w b ≤ 2 := by
  rw [riskScoreOf]
  have h1 := Risk.weight_nonneg n
  have h2 := Risk.weight_nonneg s
  have h3 := Risk.weight_nonneg (elbowSideRisk lo)
  have h4 := Risk.weight_nonneg (elbowSideRisk ro)
  have h5 := Risk.weight_nonneg w
  have h6 := Risk.weight_nonneg b
  have g1 := Risk.weight_le_two n
  have g2 := Risk.weight_le_two s
  have g3 := Risk.weight_le_two (elbowSideRisk lo)
  have g4 := Risk.weight_le_two (elbowSideRisk ro)
  have g5 := Risk.weight_le_two w
  have g6 := Risk.weight_le_two b
  constructor <;> linarith

theorem symScore_bounds (l r ref : ℝ) :
    0 ≤ symScore l r ref ∧ symScore l r ref ≤ 100 := by
  rw [symScore]
  exact ⟨le_max_left 0 _, max_le (by norm_num) (min_le_left _ _)⟩

theorem radar_clamp_bounds (x : ℝ) (hx : 0 ≤ x) :
    0 ≤ 100 - min 100 x ∧ 100 - min 100 x ≤ 100 := by
  have h1 : min 100 x ≤ 100 := min_le_left _ _
  have h2 : (0:ℝ) ≤ min 100 x := le_min (by norm_num) hx
  constructor <;> linarith

/-! ### The claims -/

/-- Claim C1: for every valid Keypoint Set (one on which the analysis
succeeds), the Risk Aggregator's numeric risk score equals the arithmetic
mean of the six per-metric numeric weights — neck flexion, shoulder
elevation, left elbow, right elbow, wrist extension, back posture, each
risk level weighted low=0, medium=1, high=2 — and consequently the score
lies in [0, 2]. -/
theorem risk_score_is_mean_of_six_weights (ks : KeypointSet)
    (rec : MetricsRecord) (h : analyze ks = .ok rec) :
    rec.risk_assessment.risk_score =
      (rec.neck_flexion.risk_level.weight +
        rec.shoulder_elevation.risk_level.weight +
        (elbowSideRisk rec.elbow_angles.left_optimal).weight +
        (elbowSideRisk rec.elbow_angles.right_optimal).weight +
        rec.wrist_extension.risk_level.weight +
        rec.back_posture.risk_level.weight) / 6 ∧
      0 ≤ rec.risk_assessment.risk_score ∧ rec.risk_assessment.risk_score ≤ 2 := by
  obtain ⟨p, hv, hrec⟩ := analyze_ok_inv ks rec h
  subst hrec
  exact ⟨rfl, riskScoreOf_bounds _ _ _ _ _ _⟩

/-- Witness for C1: the claim applied to the scenario input. -/
theorem risk_score_is_mean_of_six_weights_witness :
    0 ≤ scenarioRec.risk_assessment.risk_score ∧
      scenarioRec.risk_assessment.risk_score ≤ 2 :=
  (risk_score_is_mean_of_six_weights scenarioKS scenarioRec analyze_scenario).2

/-- Claim C2: for every valid Keypoint Set, the Back Posture extractor's
risk level is determined from the forward-lean angle by the fixed
thresholds: angle < 10° low, 10°–25° medium, angle > 25° high. -/
theorem back_posture_thresholds (ks : KeypointSet) (rec : MetricsRecord)
    (h : analyze ks = .ok rec) :
    (rec.back_posture.forward_lean_degrees < 10 →
      rec.back_posture.risk_level = .low) ∧
    (10 ≤ rec.back_posture.forward_lean_degrees ∧
        rec.back_posture.forward_lean_degrees ≤ 25 →
      rec.back_posture.risk_level = .medium) ∧
    (25 < rec.back_posture.forward_lean_degrees →
      rec.back_posture.risk_level = .high) := by
  obtain ⟨p, hv, hrec⟩ := analyze_ok_inv ks rec h
  subst hrec
  exact classifyBack_spec (backAngleOf p)

/-- Witness for C2: at the scenario input the 28° lean is classified
high. -/
theorem back_posture_thresholds_witness :
    scenarioRec.back_posture.risk_level = Risk.high :=
  (back_posture_thresholds scenarioKS scenarioRec analyze_scenario).2.2
    (by norm_num [scenarioRec])

/-- Claim C3 counterexample: on the concrete Keypoint Set realizing the
forward-leaning desk posture scenario (head pitched forward 35°, shoulders
level, back leaning forward 28°), the analysis succeeds but the back
posture risk level is not medium — 28° exceeds the 25° medium/high
threshold of §4.5. -/
theorem scenario_back_not_medium :
    analyze scenarioKS = .ok scenarioRec ∧
      scenarioRec.back_posture.risk_level ≠ Risk.medium :=
  ⟨analyze_scenario, by simp [scenarioRec]⟩

/-- Claim C3 (amended): on the forward-leaning desk posture scenario the
analysis yields neck flexion risk medium, back posture risk high (not
medium: 28° > 25°), an overall risk level of medium or higher, and a
risk-factor list containing an entry referencing the neck and one
referencing the back. -/
theorem scenario_expectations_amended :
    analyze scenarioKS = .ok scenarioRec ∧
      scenarioRec.neck_flexion.risk_level = Risk.medium ∧
      scenarioRec.back_posture.risk_level = Risk.high ∧
      scenarioRec.risk_assessment.overall_risk ≠ Risk.low ∧
      neckRiskMsg ∈ scenarioRec.risk_assessment.risk_factors ∧
      backRiskMsg ∈ scenarioRec.risk_assessment.risk_factors := by
  refine ⟨analyze_scenario, rfl, rfl, by simp [scenarioRec], ?_, ?_⟩ <;>
    simp [scenarioRec]

/-- Claim C4: removing any single required landmark from a Keypoint Set in
which every required landmark is present causes the whole analysis to fail
with a missing-landmark error naming that landmark, and no Metric Record is
returned. -/
theorem missing_landmark_aborts (ks : KeypointSet) (l : Landmark)
    (hvalid : ∀ x ∈ Landmark.required, (ks x).isSome = true)
    (hl : l ∈ Landmark.required) :
    analyze (removeLandmark ks l) = .error (.missingLandmark l) ∧
      ∀ rec, analyze (removeLandmark ks l) ≠ .ok rec := by
  have hfind : Landmark.required.find?
      (fun x => ((removeLandmark ks l) x).isNone) = some l := by
    apply find_eq_some_of_unique _ _ _ hl
    · intro x hx hpx
      by_contra hne
      have hx' : removeLandmark ks l x = ks x := by
        simp [removeLandmark, hne]
      rw [hx'] at hpx
      have hs := hvalid x hx
      rw [Option.isNone_iff_eq_none] at hpx
      rw [hpx] at hs
      exact absurd hs (by simp)
    · simp [removeLandmark]
  have hval : validate (removeLandmark ks l) = .error (.missingLandmark l) := by
    rw [validate, hfind]
  constructor
  · rw [analyze, hval]
  · intro rec hcontra
    rw [analyze, hval] at hcontra
    exact absurd hcontra (by simp)

/-- Witness for C4: removing the left wrist from the scenario input. -/
theorem missing_landmark_aborts_witness :
    analyze (removeLandmark scenarioKS .left_wrist) =
      .error (.missingLandmark .left_wrist) :=
  (missing_landmark_aborts scenarioKS .left_wrist (fun x _ => rfl)
    (by decide)).1

/-- Claim C5: for every Keypoint Set on which the analysis succeeds, every
angle output — neck flexion, left and right elbow, back forward lean, and
the (averaged) wrist deviation — lies in [0°, 180°]. -/
theorem angle_outputs_in_range (ks : KeypointSet) (rec : MetricsRecord)
    (h : analyze ks = .ok rec) :
    (0 ≤ rec.neck_flexion.angle_degrees ∧ rec.neck_flexion.angle_degrees ≤ 180) ∧
    (0 ≤ rec.elbow_angles.left_angle ∧ rec.elbow_angles.left_angle ≤ 180) ∧
    (0 ≤ rec.elbow_angles.right_angle ∧ rec.elbow_angles.right_angle ≤ 180) ∧
    (0 ≤ rec.back_posture.forward_lean_degrees ∧
      rec.back_posture.forward_lean_degrees ≤ 180) ∧
    (0 ≤ rec.wrist_extension.average_deviation ∧
      rec.wrist_extension.average_deviation ≤ 180) := by
  obtain ⟨p, hv, hrec⟩ := analyze_ok_inv ks rec h
  subst hrec
  have hw1 := angleDeg_nonneg (p .left_wrist - p .left_elbow)
    (p .left_hand - p .left_wrist)
  have hw2 := angleDeg_le_180 (p .left_wrist - p .left_elbow)
    (p .left_hand - p .left_wrist)
  have hw3 := angleDeg_nonneg (p .right_wrist - p .right_elbow)
    (p .right_hand - p .right_wrist)
  have hw4 := angleDeg_le_180 (p .right_wrist - p .right_elbow)
    (p .right_hand - p .right_wrist)
  refine ⟨⟨angleDeg_nonneg _ _, angleDeg_le_180 _ _⟩,
    ⟨angleDeg_nonneg _ _, angleDeg_le_180 _ _⟩,
    ⟨angleDeg_nonneg _ _, angleDeg_le_180 _ _⟩,
    ⟨angleDeg_nonneg _ _, angleDeg_le_180 _ _⟩, ?_, ?_⟩
  · show 0 ≤ (leftWristDevOf p + rightWristDevOf p) / 2
    rw [leftWristDevOf, rightWristDevOf]
    linarith
  · show (leftWristDevOf p + rightWristDevOf p) / 2 ≤ 180
    rw [leftWristDevOf, rightWristDevOf]
    linarith

/-- Witness for C5: the claim applied to the scenario input. -/
theorem angle_outputs_in_range_witness :
    0 ≤ scenarioRec.neck_flexion.angle_degrees ∧
      scenarioRec.elbow_angles.left_angle ≤ 180 :=
  ⟨(angle_outputs_in_range scenarioKS scenarioRec analyze_scenario).1.1,
   (angle_outputs_in_range scenarioKS scenarioRec analyze_scenario).2.1.2⟩

/-- Claim C6: for every Keypoint Set on which the analysis succeeds, the
shoulder and hip symmetry scores are the clamped value of
`100 × (1 − |left − right| / reference_scale)`, the overall score is the
unweighted mean of the two, and all three lie in [0, 100]. -/
theorem symmetry_scores_clamped (ks : KeypointSet) (rec : MetricsRecord)
    (h : analyze ks = .ok rec) :
    (∀ l r ref : ℝ,
      symScore l r ref = max 0 (min 100 (100 * (1 - |l - r| / ref)))) ∧
    (∃ p, validate ks = .ok p ∧
      rec.body_symmetry.shoulder_symmetry =
        symScore (p .left_shoulder).y (p .right_shoulder).y (breadthOf p) ∧
      rec.body_symmetry.hip_symmetry =
        symScore (p .left_hip).y (p .right_hip).y (breadthOf p)) ∧
    rec.body_symmetry.symmetry_score =
      (rec.body_symmetry.shoulder_symmetry + rec.body_symmetry.hip_symmetry) / 2 ∧
    (0 ≤ rec.body_symmetry.shoulder_symmetry ∧
      rec.body_symmetry.shoulder_symmetry ≤ 100) ∧
    (0 ≤ rec.body_symmetry.hip_symmetry ∧
      rec.body_symmetry.hip_symmetry ≤ 100) ∧
    (0 ≤ rec.body_symmetry.symmetry_score ∧
      rec.body_symmetry.symmetry_score ≤ 100) := by
  obtain ⟨p, hv, hrec⟩ := analyze_ok_inv ks rec h
  subst hrec
  have hs := symScore_bounds (p .left_shoulder).y (p .right_shoulder).y (breadthOf p)
  have hh := symScore_bounds (p .left_hip).y (p .right_hip).y (breadthOf p)
  refine ⟨fun l r ref => rfl, ⟨p, hv, rfl, rfl⟩, rfl, hs, hh, ?_, ?_⟩
  · show 0 ≤ (shoulderSymOf p + hipSymOf p) / 2
    rw [shoulderSymOf, hipSymOf]
    linarith [hs.1, hh.1]
  · show (shoulderSymOf p + hipSymOf p) / 2 ≤ 100
    rw [shoulderSymOf, hipSymOf]
    linarith [hs.2, hh.2]

/-- Witness for C6: the claim applied to the scenario input. -/
theorem symmetry_scores_clamped_witness :
    0 ≤ scenarioRec.body_symmetry.symmetry_score ∧
      scenarioRec.body_symmetry.symmetry_score ≤ 100 :=
  (symmetry_scores_clamped scenarioKS scenarioRec analyze_scenario).2.2.2.2.2

/-- Claim C7: for every valid Keypoint Set, the Neck Flexion extractor
classifies its angle by angle < 20° low, 20°–45° medium, angle > 45° high,
and its boolean optimal flag is true exactly when the angle is below
20°. -/
theorem neck_flexion_thresholds (ks : KeypointSet) (rec : MetricsRecord)
    (h : analyze ks = .ok rec) :
    (rec.neck_flexion.angle_degrees < 20 → rec.neck_flexion.risk_level = .low) ∧
    (20 ≤ rec.neck_flexion.angle_degrees ∧ rec.neck_flexion.angle_degrees ≤ 45 →
      rec.neck_flexion.risk_level = .medium) ∧
    (45 < rec.neck_flexion.angle_degrees → rec.neck_flexion.risk_level = .high) ∧
    (rec.neck_flexion.optimal = true ↔ rec.neck_flexion.angle_degrees < 20) := by
  obtain ⟨p, hv, hrec⟩ := analyze_ok_inv ks rec h
  subst hrec
  refine ⟨(classifyNeck_spec (neckAngleOf p)).1,
    (classifyNeck_spec (neckAngleOf p)).2.1,
    (classifyNeck_spec (neckAngleOf p)).2.2, ?_⟩
  show (if neckAngleOf p < 20 then true else false) = true ↔ neckAngleOf p < 20
  split_ifs with hc <;> simp [hc]

/-- Witness for C7: at the scenario input the 35° neck flexion is medium
risk and not optimal. -/
theorem neck_flexion_thresholds_witness :
    scenarioRec.neck_flexion.risk_level = Risk.medium ∧
      scenarioRec.neck_flexion.optimal = false :=
  ⟨(neck_flexion_thresholds scenarioKS scenarioRec analyze_scenario).2.1
      ⟨by norm_num [scenarioRec], by norm_num [scenarioRec]⟩, rfl⟩

/-- Claim C8: for every valid Keypoint Set, the Elbow Angle extractor
reports per-side interior angles and per-side optimal flags, each flag true
exactly when that side's angle lies in [70°, 110°]; the record carries no
aggregate elbow risk level (the `ElbowAnglesRecord` structure has no such
field). -/
theorem elbow_per_side_optimal (ks : KeypointSet) (rec : MetricsRecord)
    (h : analyze ks = .ok rec) :
    (rec.elbow_angles.left_optimal = true ↔
      70 ≤ rec.elbow_angles.left_angle ∧ rec.elbow_angles.left_angle ≤ 110) ∧
    (rec.elbow_angles.right_optimal = true ↔
      70 ≤ rec.elbow_angles.right_angle ∧ rec.elbow_angles.right_angle ≤ 110) := by
  obtain ⟨p, hv, hrec⟩ := analyze_ok_inv ks rec h
  subst hrec
  exact ⟨elbowOptimal_iff (leftElbowAngleOf p), elbowOptimal_iff (rightElbowAngleOf p)⟩

/-- Witness for C8: both 90° elbows at the scenario input are optimal. -/
theorem elbow_per_side_optimal_witness :
    scenarioRec.elbow_angles.left_optimal = true :=
  (elbow_per_side_optimal scenarioKS scenarioRec analyze_scenario).1.mpr
    ⟨by norm_num [scenarioRec], by norm_num [scenarioRec]⟩

/-- Claim C9: the analysis is deterministic — it is a pure function of the
input Keypoint Set, so two runs on the same input produce identical
results. -/
theorem analysis_deterministic (ks : KeypointSet)
    (r₁ r₂ : Except ErgoError MetricsRecord)
    (h₁ : analyze ks = r₁) (h₂ : analyze ks = r₂) : r₁ = r₂ := by
  rw [← h₁, ← h₂]

/-- Witness for C9: two runs on the scenario input agree. -/
theorem analysis_deterministic_witness :
    (Except.ok scenarioRec : Except ErgoError MetricsRecord) = .ok scenarioRec :=
  analysis_deterministic scenarioKS _ _ analyze_scenario analyze_scenario

/-- Claim C10: for every metrics record with non-negative angle values,
asymmetry percentage and average wrist deviation, and an overall symmetry
score in [0, 100], each of the six radar-chart posture-quality scores of
`MetricsDisplay.jsx` lies in [0, 100], and the Elbows entry is 100 when
both per-side optimal flags are true and 50 otherwise. -/
theorem radar_scores_in_range (m : MetricsRecord)
    (hn : 0 ≤ m.neck_flexion.angle_degrees)
    (hs : 0 ≤ m.shoulder_elevation.asymmetry_percent)
    (hw : 0 ≤ m.wrist_extension.average_deviation)
    (hb : 0 ≤ m.back_posture.forward_lean_degrees)
    (hsy0 : 0 ≤ m.body_symmetry.symmetry_score)
    (hsy1 : m.body_symmetry.symmetry_score ≤ 100) :
    (0 ≤ radarNeckScore m ∧ radarNeckScore m ≤ 100) ∧
    (0 ≤ radarShoulderScore m ∧ radarShoulderScore m ≤ 100) ∧
    (0 ≤ radarElbowScore m ∧ radarElbowScore m ≤ 100) ∧
    (0 ≤ radarWristScore m ∧ radarWristScore m ≤ 100) ∧
    (0 ≤ radarBackScore m ∧ radarBackScore m ≤ 100) ∧
    (0 ≤ radarSymmetryScore m ∧ radarSymmetryScore m ≤ 100) ∧
    (m.elbow_angles.left_optimal = true ∧ m.elbow_angles.right_optimal = true →
      radarElbowScore m = 100) ∧
    (¬(m.elbow_angles.left_optimal = true ∧ m.elbow_angles.right_optimal = true) →
      radarElbowScore m = 50) := by
  refine ⟨?_, ?_, ?_, ?_, ?_, ⟨hsy0, hsy1⟩, ?_, ?_⟩
  · exact radar_clamp_bounds _
      (mul_nonneg (div_nonneg hn (by norm_num)) (by norm_num))
  · exact radar_clamp_bounds _ (mul_nonneg hs (by norm_num))
  · rw [radarElbowScore]
    split_ifs <;> norm_num
  · exact radar_clamp_bounds _
      (mul_nonneg (div_nonneg hw (by norm_num)) (by norm_num))
  · exact radar_clamp_bounds _
      (mul_nonneg (div_nonneg hb (by norm_num)) (by norm_num))
  · intro ⟨hl, hr⟩
    rw [radarElbowScore, hl, hr]
    norm_num
  · intro hne
    rw [radarElbowScore]
    cases hl : m.elbow_angles.left_optimal <;>
      cases hr : m.elbow_angles.right_optimal <;> simp_all

/-- Witness for C10: the claim applied to the scenario record. -/
theorem radar_scores_in_range_witness :
    radarElbowScore scenarioRec = 100 ∧ 0 ≤ radarNeckScore scenarioRec := by
  have h := radar_scores_in_range scenarioRec (by norm_num [scenarioRec])
    (by norm_num [scenarioRec]) (by norm_num [scenarioRec])
    (by norm_num [scenarioRec]) (by norm_num [scenarioRec])
    (by norm_num [scenarioRec])
  exact ⟨h.2.2.2.2.2.2.1 ⟨rfl, rfl⟩, h.1.1⟩

end

end Ergo
